import Mathlib

/-!
Shallow embedding of `ser_cmd.py`: serial-port discovery, the
`request_bap` exchange primitive, the `send` wrapper, and the
interactive port-selection loop of the `__main__` block.
-/

/-! ### UTF-8 encoding and strict decoding (models `str.encode()` / `bytes.decode('utf-8')`) -/

/-- UTF-8 encoding of a single Unicode code point (as produced by Python `str.encode()`). -/
def utf8EncodeCp (n : Nat) : List Nat :=
  if n < 0x80 then [n]
  else if n < 0x800 then [0xC0 + n / 0x40, 0x80 + n % 0x40]
  else if n < 0x10000 then
    [0xE0 + n / 0x1000, 0x80 + (n / 0x40) % 0x40, 0x80 + n % 0x40]
  else
    [0xF0 + n / 0x40000, 0x80 + (n / 0x1000) % 0x40, 0x80 + (n / 0x40) % 0x40, 0x80 + n % 0x40]

/-- UTF-8 encoding of a string, byte list (models Python `s.encode()`). -/
def encodeStr (s : String) : List Nat :=
  (s.data.map (fun c => utf8EncodeCp c.toNat)).foldr (· ++ ·) []

/-- Is `b` a UTF-8 continuation byte (`0x80..0xBF`)? -/
def isCont (b : Nat) : Bool := 0x80 ≤ b && b ≤ 0xBF

/-- Strict UTF-8 decoder over byte lists, rejecting overlong forms, surrogates and
out-of-range sequences, as Python `bytes.decode('utf-8')` does; `none` models
`UnicodeDecodeError`. -/
def utf8Decode : List Nat → Option (List Char)
  | [] => some []
  | b :: rest =>
    if b < 0x80 then
      match utf8Decode rest with
      | some cs => some (Char.ofNat b :: cs)
      | none => none
    else if 0xC2 ≤ b && b ≤ 0xDF then
      match rest with
      | b2 :: rest2 =>
        if isCont b2 then
          match utf8Decode rest2 with
          | some cs => some (Char.ofNat ((b - 0xC0) * 0x40 + (b2 - 0x80)) :: cs)
          | none => none
        else none
      | [] => none
    else if 0xE0 ≤ b && b ≤ 0xEF then
      match rest with
      | b2 :: b3 :: rest3 =>
        let okB2 : Bool :=
          if b = 0xE0 then 0xA0 ≤ b2 && b2 ≤ 0xBF
          else if b = 0xED then 0x80 ≤ b2 && b2 ≤ 0x9F
          else isCont b2
        if okB2 && isCont b3 then
          match utf8Decode rest3 with
          | some cs =>
            some (Char.ofNat ((b - 0xE0) * 0x1000 + (b2 - 0x80) * 0x40 + (b3 - 0x80)) :: cs)
          | none => none
        else none
      | _ => none
    else if 0xF0 ≤ b && b ≤ 0xF4 then
      match rest with
      | b2 :: b3 :: b4 :: rest4 =>
        let okB2 : Bool :=
          if b = 0xF0 then 0x90 ≤ b2 && b2 ≤ 0xBF
          else if b = 0xF4 then 0x80 ≤ b2 && b2 ≤ 0x8F
          else isCont b2
        if okB2 && isCont b3 && isCont b4 then
          match utf8Decode rest4 with
          | some cs =>
            some (Char.ofNat
              ((b - 0xF0) * 0x40000 + (b2 - 0x80) * 0x1000 + (b3 - 0x80) * 0x40 + (b4 - 0x80)) :: cs)
          | none => none
        else none
      | _ => none
    else none

/-- Decode a byte list to a `String` (models `bytes.decode('utf-8')`). -/
def utf8DecodeStr (l : List Nat) : Option String :=
  (utf8Decode l).map fun cs => ⟨cs⟩

/-! ### Substring containment (models Python `in` on `bytes` / `str`) -/

/-- Boolean infix test on lists: does `pat` occur contiguously inside the second list? -/
def hasInfixB (pat : List Nat) : List Nat → Bool
  | [] => pat.isEmpty
  | a :: t => pat.isPrefixOf (a :: t) || hasInfixB pat t

/-- Boolean substring test on strings (models Python `pat in s`). -/
def strContains (s pat : String) : Bool :=
  decide (pat.data <:+: s.data)

theorem hasInfixB_isInfixIff (pat l : List Nat) : hasInfixB pat l = true ↔ pat <:+: l := by
  induction l with
  | nil =>
    simp [hasInfixB, List.isEmpty_iff]
  | cons a t ih =>
    simp only [hasInfixB, Bool.or_eq_true, List.isPrefixOf_iff_prefix, ih]
    constructor
    · rintro (h | h)
      · exact h.isInfix
      · exact h.trans (List.suffix_cons a t).isInfix
    · intro h
      rcases (List.infix_cons_iff).1 h with h | h
      · exact Or.inl h
      · exact Or.inr h

theorem hasInfixB_append (pat l m : List Nat) (h : hasInfixB pat l = true) :
    hasInfixB pat (l ++ m) = true := by
  rw [hasInfixB_isInfixIff] at h ⊢
  exact h.trans (List.prefix_append l m).isInfix

example : hasInfixB [10, 10] [120, 10, 10] = true := by decide
example : (3 : ℚ) > 2 := by decide
example : utf8DecodeStr [120, 10, 10] = some "x\n\n" := by decide
example : utf8DecodeStr [255, 10, 10] = none := by decide
example : encodeStr "ab\n" = [97, 98, 10] := by decide
example : strContains "a 200 OK b" "200 OK" = true := by decide

/-! ### The exchange primitive `request_bap` (src/ser_cmd.py lines 79-103)

The serial connection is modelled as the environment the polling loop observes:
one `PollEvent` per iteration of the outer `while True` loop, recording the
wall-clock time elapsed since `t0` (in seconds, as measured at the
`(time.time() - t0) > timeout` check) and the bytes drained by the inner
`while com.inWaiting()` loop during that iteration. -/

/-- One iteration of the outer read loop: elapsed wall-clock seconds at the
timeout check, and the bytes drained by the inner `inWaiting` loop first. -/
structure PollEvent where
  elapsed : ℚ
  chunk : List Nat
deriving DecidableEq, Repr

/-- The double-newline end-of-message marker `b"\n\n"`. -/
def nnBytes : List Nat := [10, 10]

/-- Outcome of the read loop: frame completed with the accumulated buffer,
timed out, or the supplied poll trace ended before the loop resolved. -/
inductive ReadResult
  | complete (buf : List Nat)
  | timedOut
  | undetermined
deriving DecidableEq, Repr

/-- The read loop of `request_bap` (lines 90-102): each iteration drains the
available bytes into `r`, breaks when `b"\n\n"` is in `r`, and raises the
timeout exception when the elapsed time strictly exceeds 2 seconds. -/
def readLoop : List PollEvent → List Nat → ReadResult
  | [], _ => ReadResult.undetermined
  | e :: es, r =>
    let r' := r ++ e.chunk
    if hasInfixB nnBytes r' then ReadResult.complete r'
    else if e.elapsed > 2 then ReadResult.timedOut
    else readLoop es r'

/-! ### Python exception classes relevant to `ser_cmd.py` -/

/-- The Python exception classes that can arise in `ser_cmd.py`:
the generic bases, `TypeError` (line 81), `UnicodeDecodeError` (line 103),
and pyserial `SerialException` which derives from `OSError`. -/
inductive ExcClass
  | baseException
  | exception
  | typeError
  | valueError
  | unicodeError
  | unicodeDecodeError
  | osError
  | serialException
deriving DecidableEq, Repr

/-- The inheritance chain of each class, itself included, following CPython
(`UnicodeDecodeError < UnicodeError < ValueError < Exception`) and pyserial
(`SerialException < OSError < Exception`). -/
def ExcClass.ancestors : ExcClass → List ExcClass
  | .baseException => [.baseException]
  | .exception => [.exception, .baseException]
  | .typeError => [.typeError, .exception, .baseException]
  | .valueError => [.valueError, .exception, .baseException]
  | .unicodeError => [.unicodeError, .valueError, .exception, .baseException]
  | .unicodeDecodeError =>
    [.unicodeDecodeError, .unicodeError, .valueError, .exception, .baseException]
  | .osError => [.osError, .exception, .baseException]
  | .serialException => [.serialException, .osError, .exception, .baseException]

/-- `isSubclassB c t`: is `c` the class `t` or one of its subclasses? -/
def isSubclassB (c t : ExcClass) : Bool := decide (t ∈ c.ancestors)

/-- A raised Python exception: its class and its message. -/
structure PyExc where
  cls : ExcClass
  msg : String
deriving DecidableEq, Repr

/-- An `except H:` clause catches exception `e` iff the class of `e` is `H`
or a subclass of `H`. -/
def catchesB (handler : ExcClass) (e : PyExc) : Bool := isSubclassB e.cls handler

/-- The exception of line 81: `raise TypeError('cmd must be str')`. -/
def typeErrorExc : PyExc := ⟨ExcClass.typeError, "cmd must be str"⟩

/-- The exception of line 101: `raise Exception('timeout before end of message.')` —
note its class is the generic `Exception` base. -/
def timeoutExc : PyExc := ⟨ExcClass.exception, "timeout before end of message."⟩

/-- An OS-level I/O failure surfaced by pyserial during `com.write` (a
`SerialException`). -/
def writeFailExc : PyExc := ⟨ExcClass.serialException, "write failed"⟩

/-- The `UnicodeDecodeError` raised by `r.decode('utf-8')` on line 103 when the
accumulated buffer is not valid UTF-8 (message is runtime-generated). -/
def decodeFailExc : PyExc := ⟨ExcClass.unicodeDecodeError, "invalid utf-8 in response"⟩

/-! ### The connection model and `request_bap` itself -/

/-- Model of the serial connection `com` as the I/O behaviour `request_bap`
observes: the chunks drained by the flush loop (lines 84-87), whether
`com.write` fails with a `SerialException`, and the poll trace of the read
loop. -/
structure Com where
  flushChunks : List (List Nat)
  writeFails : Bool
  polls : List PollEvent

/-- A Python value passed as the `cmd` argument (the dynamically-typed
argument of `request_bap`). -/
inductive PyVal
  | str (s : String)
  | int (i : Int)
  | bytes (b : List Nat)
  | pyNone
deriving DecidableEq, Repr

deriving instance DecidableEq for Except

/-- Observable outcome of one `request_bap` call: the bytes written to the
connection and the result (`none` when the poll trace ended before the read
loop resolved). -/
structure BapRun where
  written : List Nat
  result : Option (Except PyExc String)
deriving DecidableEq, Repr

/-- `request_bap(com, cmd)` (lines 79-103): type check, flush, write
`cmd + '\n'` UTF-8 encoded, run the read loop with a 2-second budget, and
decode the completed buffer as UTF-8. -/
def request_bap (com : Com) (cmd : PyVal) : BapRun :=
  match cmd with
  | PyVal.str s =>
    let _drained := com.flushChunks.foldr (· ++ ·) []
    if com.writeFails then ⟨[], some (Except.error writeFailExc)⟩
    else
      let payload := encodeStr (s ++ "\n")
      match readLoop com.polls [] with
      | ReadResult.complete buf =>
        match utf8DecodeStr buf with
        | some out => ⟨payload, some (Except.ok out)⟩
        | none => ⟨payload, some (Except.error decodeFailExc)⟩
      | ReadResult.timedOut => ⟨payload, some (Except.error timeoutExc)⟩
      | ReadResult.undetermined => ⟨payload, none⟩
  | _ => ⟨[], some (Except.error typeErrorExc)⟩

/-- `send(com, cmd)` (lines 105-110): returns the reply of `request_bap`, or
the literal sentinel string `"error"` when `request_bap` raised any
exception. `none` when the underlying poll trace was undetermined. -/
def send (com : Com) (cmd : PyVal) : Option String :=
  match (request_bap com cmd).result with
  | some (Except.ok s) => some s
  | some (Except.error _) => some "error"
  | none => none

example :
    request_bap ⟨[], false, [⟨1, []⟩, ⟨3, [120, 10, 10]⟩]⟩ (PyVal.str "version") =
      ⟨encodeStr "version\n", some (Except.ok "x\n\n")⟩ := by decide
example :
    (request_bap ⟨[], false, [⟨3, []⟩]⟩ (PyVal.str "v")).result =
      some (Except.error timeoutExc) := by decide
example : send ⟨[], true, []⟩ (PyVal.str "v") = some "error" := by decide

/-! ### Port discovery: `SerialPorts` (src/ser_cmd.py lines 40-76) -/

/-- The host platform, as classified by the `sys.platform.startswith` tests of
`scan_ports` (lines 54-58). -/
inductive Platform
  | win
  | linux
  | other
deriving DecidableEq, Repr

/-- The host environment `scan_ports` observes: the platform, the expansion of
the glob `/dev/tty[A-Za-z]*` on Linux, and which paths `serial.Serial(port)`
can open (and close) without raising `SerialException`. -/
structure Host where
  platform : Platform
  ttyGlob : List String
  openCloseOk : String → Bool

/-- The fixed Windows candidate list `['COM1', ..., 'COM256']` (line 55). -/
def winPorts : List String :=
  (List.range 256).map (fun i => "COM" ++ toString (i + 1))

/-- The candidate list chosen by the platform branch of `scan_ports`
(lines 54-60); `none` models the early `return None` on an unsupported OS. -/
def scanCandidates (h : Host) : Option (List String) :=
  match h.platform with
  | Platform.win => some winPorts
  | Platform.linux => some h.ttyGlob
  | Platform.other => none

/-- Observable outcome of one `scan_ports` call: the value of `self._ports`
after the call and the messages reported through `logger.error`. -/
structure ScanOut where
  ports : List String
  errLogs : List String
deriving DecidableEq, Repr

/-- `scan_ports` (lines 48-76), acting on the current `self._ports` state
`cur`: on an unsupported OS it reports and returns early leaving `_ports`
untouched; otherwise `_ports` becomes the candidates that open and close
without `SerialException`, each failure being swallowed by the
`except serial.SerialException: pass` clause. -/
def scan_ports (h : Host) (cur : List String) : ScanOut :=
  match scanCandidates h with
  | none => ⟨cur, ["Unsupported OS"]⟩
  | some cands => ⟨cands.filter h.openCloseOk, []⟩

/-- `get_ports` (lines 44-46): run `scan_ports`, then return `self._ports`.
A fresh `SerialPorts()` instance has `cur = []` (line 42). -/
def get_ports (h : Host) (cur : List String) : List String :=
  (scan_ports h cur).ports

example : get_ports ⟨Platform.other, ["/dev/ttyS0"], fun _ => true⟩ [] = [] := rfl
example :
    get_ports ⟨Platform.linux, ["/dev/ttyACM0", "/dev/ttyBAD", "/dev/ttyS0"],
        fun p => p != "/dev/ttyBAD"⟩ [] =
      ["/dev/ttyACM0", "/dev/ttyS0"] := rfl

/-! ### The port-selection loop of `__main__` (src/ser_cmd.py lines 158-182)

The loop is modelled over the sequence of port numbers the operator types and
an abstraction `respOf : String → String` giving, for each port path, the
string returned by `send(serial.Serial(port=...), 'version')`. -/

/-- What one iteration of the `while True` loop does after inspecting `resp`
(lines 172-177): `retry` prompts for another port number, `accept` breaks out
of the loop keeping `com`. -/
inductive LoopAction
  | retry
  | accept
deriving DecidableEq, Repr

/-- The reply inspection of lines 172-177: `if 'error' in resp:` loop again;
`elif '200 OK' in resp: break`; `else: break`. Both the `elif` and the
`else` branch break, so any reply without `"error"` is accepted. -/
def probeStep (resp : String) : LoopAction :=
  if strContains resp "error" then LoopAction.retry
  else if strContains resp "200 OK" then LoopAction.accept
  else LoopAction.accept

/-- Observable events of the selection branch: ports opened via
`serial.Serial(...)`, probes issued via `send(com, 'version')`, connections
closed via `com.close()` (never emitted inside the loop — the only
`com.close()` is at line 200, after the REPL), and the hand-over of the kept
connection to the rest of `__main__`. -/
inductive Ev
  | openedPort (p : String)
  | probed (p : String)
  | closedPort (p : String)
  | handedOver (p : String)
deriving DecidableEq, Repr

/-- Outcome of the selection branch. `crashed` models an uncaught exception
(`ports[int(port_num)]` out of range, or `ports[0]` on an empty list);
`needMoreInput` means the supplied operator inputs ran out while the loop was
still prompting. -/
inductive SelectOutcome
  | selected (p : String) (evs : List Ev)
  | crashed (evs : List Ev)
  | needMoreInput (evs : List Ev)
deriving DecidableEq, Repr

/-- The `while True` loop of lines 167-177, over the operator's remaining
port-number inputs, accumulating the event trace `evs`. Each iteration opens
the chosen port (line 170), probes it with `'version'` (line 171), and acts on
the reply per `probeStep`; no `com.close()` occurs on the retry path. -/
def selectLoop (ports : List String) (respOf : String → String) :
    List Nat → List Ev → SelectOutcome
  | [], evs => SelectOutcome.needMoreInput evs
  | c :: cs, evs =>
    match ports[c]? with
    | none => SelectOutcome.crashed evs
    | some p =>
      let evs' := evs ++ [Ev.openedPort p, Ev.probed p]
      match probeStep (respOf p) with
      | LoopAction.retry => selectLoop ports respOf cs evs'
      | LoopAction.accept => SelectOutcome.selected p (evs' ++ [Ev.handedOver p])

/-- The port-selection branch of `__main__` (lines 158-182): with more than
one discovered port the interactive probe loop runs; otherwise `port =
ports[0]` is taken directly and, since `com` is still `None`, the port is
opened at line 182 without any probe. -/
def mainSelect (ports : List String) (respOf : String → String)
    (choices : List Nat) : SelectOutcome :=
  if ports.length > 1 then selectLoop ports respOf choices []
  else
    match ports with
    | [] => SelectOutcome.crashed []
    | p :: _ => SelectOutcome.selected p [Ev.openedPort p, Ev.handedOver p]

example :
    mainSelect ["A", "B"] (fun p => if p = "A" then "error" else "ok 200 OK\n\n") [0, 1] =
      SelectOutcome.selected "B"
        [Ev.openedPort "A", Ev.probed "A", Ev.openedPort "B", Ev.probed "B",
          Ev.handedOver "B"] := rfl
example :
    mainSelect ["A"] (fun _ => "200 OK\n\n") [] =
      SelectOutcome.selected "A" [Ev.openedPort "A", Ev.handedOver "A"] := rfl

/-! ### Characterizing the read loop by its poll trace -/

/-- Concatenation of the byte chunks of a poll trace. -/
def catChunks : List PollEvent → List Nat
  | [] => []
  | e :: es => e.chunk ++ catChunks es

/-- The accumulated read buffer after the drain of poll iteration `k`,
starting from buffer `r`. -/
def accBuf (r : List Nat) (polls : List PollEvent) (k : Nat) : List Nat :=
  r ++ catChunks (polls.take (k + 1))

/-- The elapsed wall-clock time observed at poll iteration `k`. -/
def elapsedAt (polls : List PollEvent) (k : Nat) : ℚ :=
  (polls.getD k ⟨0, []⟩).elapsed

theorem accBuf_cons (r : List Nat) (e : PollEvent) (es : List PollEvent) (k : Nat) :
    accBuf r (e :: es) k = (r ++ e.chunk) ++ catChunks (es.take k) := by
  simp [accBuf, List.take_succ_cons, catChunks, List.append_assoc]

theorem accBuf_cons_succ (r : List Nat) (e : PollEvent) (es : List PollEvent) (k : Nat) :
    accBuf r (e :: es) (k + 1) = accBuf (r ++ e.chunk) es k := by
  simp [accBuf, List.take_succ_cons, catChunks, List.append_assoc]

theorem accBuf_cons_zero (r : List Nat) (e : PollEvent) (es : List PollEvent) :
    accBuf r (e :: es) 0 = r ++ e.chunk := by
  simp [accBuf, List.take_succ_cons, catChunks]

theorem elapsedAt_cons_zero (e : PollEvent) (es : List PollEvent) :
    elapsedAt (e :: es) 0 = e.elapsed := rfl

theorem elapsedAt_cons_succ (e : PollEvent) (es : List PollEvent) (k : Nat) :
    elapsedAt (e :: es) (k + 1) = elapsedAt es k := rfl

/-- The read loop times out exactly when some poll finds the buffer still
without `b"\n\n"` at elapsed time strictly over 2 seconds, every earlier poll
having been at elapsed time at most 2 seconds. -/
theorem readLoop_timedOut_iff (polls : List PollEvent) (r : List Nat) :
    readLoop polls r = ReadResult.timedOut ↔
      ∃ k, k < polls.length ∧ hasInfixB nnBytes (accBuf r polls k) = false ∧
        elapsedAt polls k > 2 ∧ ∀ j, j < k → elapsedAt polls j ≤ 2 := by
  induction polls generalizing r with
  | nil => simp [readLoop]
  | cons e es ih =>
    cases hc : hasInfixB nnBytes (r ++ e.chunk) with
    | true =>
      simp only [readLoop, hc, if_true]
      constructor
      · intro h; cases h
      · rintro ⟨k, hk, hfalse, -, -⟩
        have htrue : hasInfixB nnBytes (accBuf r (e :: es) k) = true := by
          rw [accBuf_cons]; exact hasInfixB_append _ _ _ hc
        rw [htrue] at hfalse; cases hfalse
    | false =>
      by_cases ht : e.elapsed > 2
      · simp only [readLoop, hc, Bool.false_eq_true, if_false, ht, if_true]
        constructor
        · intro _
          refine ⟨0, Nat.succ_pos _, ?_, ?_, ?_⟩
          · rw [accBuf_cons_zero]; exact hc
          · rw [elapsedAt_cons_zero]; exact ht
          · intro j hj; exact absurd hj (Nat.not_lt_zero j)
        · intro _; trivial
      · simp only [readLoop, hc, Bool.false_eq_true, if_false, ht, ih]
        constructor
        · rintro ⟨k, hk, h1, h2, h3⟩
          refine ⟨k + 1, Nat.succ_lt_succ hk, ?_, ?_, ?_⟩
          · rw [accBuf_cons_succ]; exact h1
          · rw [elapsedAt_cons_succ]; exact h2
          · intro j hj
            cases j with
            | zero => rw [elapsedAt_cons_zero]; exact le_of_not_lt ht
            | succ j =>
              rw [elapsedAt_cons_succ]; exact h3 j (Nat.lt_of_succ_lt_succ hj)
        · rintro ⟨k, hk, h1, h2, h3⟩
          cases k with
          | zero =>
            rw [elapsedAt_cons_zero] at h2; exact absurd h2 ht
          | succ k =>
            refine ⟨k, Nat.lt_of_succ_lt_succ hk, ?_, ?_, ?_⟩
            · rw [← accBuf_cons_succ]; exact h1
            · rw [← elapsedAt_cons_succ e]; exact h2
            · intro j hj
              have := h3 (j + 1) (Nat.succ_lt_succ hj)
              rw [elapsedAt_cons_succ] at this; exact this

/-- The read loop completes exactly when some poll sees `b"\n\n"` in the
accumulated buffer, every strictly earlier poll having been at elapsed time
at most 2 seconds. -/
theorem readLoop_complete_iff (polls : List PollEvent) (r : List Nat) :
    (∃ b, readLoop polls r = ReadResult.complete b) ↔
      ∃ k, k < polls.length ∧ hasInfixB nnBytes (accBuf r polls k) = true ∧
        ∀ j, j < k → elapsedAt polls j ≤ 2 := by
  induction polls generalizing r with
  | nil => simp [readLoop]
  | cons e es ih =>
    cases hc : hasInfixB nnBytes (r ++ e.chunk) with
    | true =>
      simp only [readLoop, hc, if_true]
      constructor
      · intro _
        refine ⟨0, Nat.succ_pos _, ?_, ?_⟩
        · rw [accBuf_cons_zero]; exact hc
        · intro j hj; exact absurd hj (Nat.not_lt_zero j)
      · intro _; exact ⟨r ++ e.chunk, rfl⟩
    | false =>
      by_cases ht : e.elapsed > 2
      · simp only [readLoop, hc, Bool.false_eq_true, if_false, ht, if_true]
        constructor
        · rintro ⟨b, hb⟩; cases hb
        · rintro ⟨k, hk, h1, h3⟩
          cases k with
          | zero =>
            rw [accBuf_cons_zero] at h1; rw [h1] at hc; cases hc
          | succ k =>
            have := h3 0 (Nat.succ_pos k)
            rw [elapsedAt_cons_zero] at this; exact absurd ht (not_lt_of_le this)
      · simp only [readLoop, hc, Bool.false_eq_true, if_false, ht, ih]
        constructor
        · rintro ⟨k, hk, h1, h3⟩
          refine ⟨k + 1, Nat.succ_lt_succ hk, ?_, ?_⟩
          · rw [accBuf_cons_succ]; exact h1
          · intro j hj
            cases j with
            | zero => rw [elapsedAt_cons_zero]; exact le_of_not_lt ht
            | succ j =>
              rw [elapsedAt_cons_succ]; exact h3 j (Nat.lt_of_succ_lt_succ hj)
        · rintro ⟨k, hk, h1, h3⟩
          cases k with
          | zero =>
            rw [accBuf_cons_zero] at h1; rw [h1] at hc; cases hc
          | succ k =>
            refine ⟨k, Nat.lt_of_succ_lt_succ hk, ?_, ?_⟩
            · rw [← accBuf_cons_succ]; exact h1
            · intro j hj
              have := h3 (j + 1) (Nat.succ_lt_succ hj)
              rw [elapsedAt_cons_succ] at this; exact this

/-! ### Branch lemmas for `request_bap` on a string command -/

theorem request_bap_timeout (com : Com) (s : String) (hw : com.writeFails = false)
    (h : readLoop com.polls [] = ReadResult.timedOut) :
    (request_bap com (PyVal.str s)).result = some (Except.error timeoutExc) := by
  simp [request_bap, hw, h]

theorem request_bap_ok (com : Com) (s : String) (hw : com.writeFails = false)
    (b : List Nat) (out : String) (h : readLoop com.polls [] = ReadResult.complete b)
    (hd : utf8DecodeStr b = some out) :
    (request_bap com (PyVal.str s)).result = some (Except.ok out) := by
  simp [request_bap, hw, h, hd]

theorem request_bap_decodeErr (com : Com) (s : String) (hw : com.writeFails = false)
    (b : List Nat) (h : readLoop com.polls [] = ReadResult.complete b)
    (hd : utf8DecodeStr b = none) :
    (request_bap com (PyVal.str s)).result = some (Except.error decodeFailExc) := by
  simp [request_bap, hw, h, hd]

theorem request_bap_undet (com : Com) (s : String) (hw : com.writeFails = false)
    (h : readLoop com.polls [] = ReadResult.undetermined) :
    (request_bap com (PyVal.str s)).result = none := by
  simp [request_bap, hw, h]

/-! ### Claim C1 -/

/-- Modelled from the spec wording of C1: the accumulated read buffer comes to
contain `b"\n\n"` within the 2-second budget, i.e. at a poll whose elapsed
time is at most 2 seconds. -/
def specWithinBudget (polls : List PollEvent) : Prop :=
  ∃ k, k < polls.length ∧ elapsedAt polls k ≤ 2 ∧
    hasInfixB nnBytes (accBuf [] polls k) = true

/-- Executable form of `specWithinBudget`. -/
def specWithinBudgetB (polls : List PollEvent) : Bool :=
  (List.range polls.length).any fun k =>
    decide (elapsedAt polls k ≤ 2) && hasInfixB nnBytes (accBuf [] polls k)

theorem specWithinBudgetB_iff (polls : List PollEvent) :
    specWithinBudgetB polls = true ↔ specWithinBudget polls := by
  simp only [specWithinBudgetB, specWithinBudget, List.any_eq_true, List.mem_range,
    Bool.and_eq_true, decide_eq_true_eq]

/-- A connection whose reply `b"x\n\n"` only arrives at a poll 3 seconds in,
the previous poll having been at 1 second. -/
def comLate : Com := ⟨[], false, [⟨1, []⟩, ⟨3, [120, 10, 10]⟩]⟩

/-- C1 counterexample: on `comLate` the buffer only comes to contain the
`b"\n\n"` marker at elapsed time 3 s, outside the 2-second budget, yet
`request_bap` returns successfully instead of failing with the timeout error,
because the completion check at line 98 runs before the timeout check at
line 100. -/
theorem c1_counterexample :
    (request_bap comLate (PyVal.str "version")).result = some (Except.ok "x\n\n")
    ∧ ¬ specWithinBudget comLate.polls := by
  constructor
  · decide
  · intro h
    rw [← specWithinBudgetB_iff] at h
    exact absurd h (by decide)

/-- C1 (amended): for a string command on a connection whose write succeeds,
`request_bap` fails with the timeout exception iff some poll finds the buffer
still without `b"\n\n"` at elapsed time strictly over 2 s with every earlier
poll at most 2 s; the read loop completes iff some poll sees `b"\n\n"` in the
accumulated buffer with every strictly earlier poll at most 2 s (so a frame
completing past the 2-second mark still succeeds, since the completion check
precedes the timeout check); and the call returns a reply string iff the loop
completed and the completed buffer decodes as UTF-8. The timeout error value
carries only a class and a message — no partial buffer is returned. -/
theorem c1_request_bap_amended (com : Com) (cmd : String)
    (hw : com.writeFails = false) :
    ((request_bap com (PyVal.str cmd)).result = some (Except.error timeoutExc) ↔
      ∃ k, k < com.polls.length ∧ hasInfixB nnBytes (accBuf [] com.polls k) = false ∧
        elapsedAt com.polls k > 2 ∧ ∀ j, j < k → elapsedAt com.polls j ≤ 2)
    ∧ ((∃ b, readLoop com.polls [] = ReadResult.complete b) ↔
      ∃ k, k < com.polls.length ∧ hasInfixB nnBytes (accBuf [] com.polls k) = true ∧
        ∀ j, j < k → elapsedAt com.polls j ≤ 2)
    ∧ (∀ out, (request_bap com (PyVal.str cmd)).result = some (Except.ok out) ↔
      ∃ b, readLoop com.polls [] = ReadResult.complete b ∧
        utf8DecodeStr b = some out) := by
  refine ⟨?_, readLoop_complete_iff com.polls [], ?_⟩
  · rw [← readLoop_timedOut_iff com.polls []]
    constructor
    · intro h
      cases hr : readLoop com.polls [] with
      | complete b =>
        cases hd : utf8DecodeStr b with
        | some o =>
          rw [request_bap_ok com cmd hw b o hr hd] at h
          simp at h
        | none =>
          rw [request_bap_decodeErr com cmd hw b hr hd] at h
          simp [decodeFailExc, timeoutExc] at h
      | timedOut => rfl
      | undetermined =>
        rw [request_bap_undet com cmd hw hr] at h
        simp at h
    · intro h; exact request_bap_timeout com cmd hw h
  · intro out
    constructor
    · intro h
      cases hr : readLoop com.polls [] with
      | complete b =>
        cases hd : utf8DecodeStr b with
        | some o =>
          rw [request_bap_ok com cmd hw b o hr hd] at h
          have ho : o = out := by simpa using h
          exact ⟨b, rfl, ho ▸ hd⟩
        | none =>
          rw [request_bap_decodeErr com cmd hw b hr hd] at h
          simp [decodeFailExc] at h
      | timedOut =>
        rw [request_bap_timeout com cmd hw hr] at h
        simp [timeoutExc] at h
      | undetermined =>
        rw [request_bap_undet com cmd hw hr] at h
        simp at h
    · rintro ⟨b, hb, hd⟩
      exact request_bap_ok com cmd hw b out hb hd

/-- Connection whose single poll happens at 3 s with nothing received. -/
def comTimeout1 : Com := ⟨[], false, [⟨3, []⟩]⟩

/-- C1 witness: the amended theorem applied at `comTimeout1` yields the
timeout error concretely. -/
theorem c1_request_bap_amended_witness :
    (request_bap comTimeout1 (PyVal.str "version")).result =
      some (Except.error timeoutExc) :=
  (c1_request_bap_amended comTimeout1 "version" rfl).1.mpr
    ⟨0, by decide, by decide, by decide, fun j hj => absurd hj (Nat.not_lt_zero j)⟩

/-! ### Claims C2, C3, C4: the selection loop -/

theorem probeStep_retry_iff (resp : String) :
    probeStep resp = LoopAction.retry ↔ strContains resp "error" = true := by
  cases h : strContains resp "error" <;> simp [probeStep, h, ite_self]

theorem probeStep_accept_of (resp : String)
    (h : strContains resp "error" = false) :
    probeStep resp = LoopAction.accept := by
  simp [probeStep, h, ite_self]

/-- C2 counterexample: a reply that contains neither `"error"` nor `"200 OK"`
is nevertheless Confirmed — the loop stops and keeps the connection — because
the `elif`/`else` branches of lines 174-177 both `break`. -/
theorem c2_counterexample :
    mainSelect ["A", "B"] (fun _ => "FOO 500\n\n") [0] =
      SelectOutcome.selected "A"
        [Ev.openedPort "A", Ev.probed "A", Ev.handedOver "A"]
    ∧ strContains "FOO 500\n\n" "200 OK" = false := by
  exact ⟨rfl, by decide⟩

/-- C2 (amended): a probed candidate is Rejected (the loop prompts again)
iff the reply of `send` contains the substring `"error"`; any reply lacking
`"error"` — whether or not it contains `"200 OK"` — stops the loop and keeps
that candidate for the caller, since both the `elif '200 OK'` branch and the
`else` branch break. -/
theorem c2_selection_amended (ports : List String) (respOf : String → String)
    (c : Nat) (cs : List Nat) (evs : List Ev) (p : String)
    (hp : ports[c]? = some p) :
    (strContains (respOf p) "error" = false →
      selectLoop ports respOf (c :: cs) evs =
        SelectOutcome.selected p
          (evs ++ [Ev.openedPort p, Ev.probed p, Ev.handedOver p]))
    ∧ (strContains (respOf p) "error" = true →
      selectLoop ports respOf (c :: cs) evs =
        selectLoop ports respOf cs (evs ++ [Ev.openedPort p, Ev.probed p])) := by
  constructor
  · intro h
    have ha := probeStep_accept_of (respOf p) h
    simp [selectLoop, hp, ha, List.append_assoc]
  · intro h
    have ha := (probeStep_retry_iff (respOf p)).mpr h
    simp [selectLoop, hp, ha]

/-- C2 witness: the amended theorem at a concrete reply containing
`"200 OK"`. -/
theorem c2_selection_amended_witness :
    selectLoop ["A", "B"] (fun _ => "ver 200 OK\n\n") [0] [] =
      SelectOutcome.selected "A"
        ([] ++ [Ev.openedPort "A", Ev.probed "A", Ev.handedOver "A"]) :=
  (c2_selection_amended ["A", "B"] (fun _ => "ver 200 OK\n\n") 0 [] [] "A" rfl).1
    (by decide)

theorem selectLoop_probed (ports : List String) (respOf : String → String) :
    ∀ (choices : List Nat) (evs : List Ev) (p : String) (evs' : List Ev),
      selectLoop ports respOf choices evs = SelectOutcome.selected p evs' →
      Ev.probed p ∈ evs' := by
  intro choices
  induction choices with
  | nil => intro evs p evs' h; simp [selectLoop] at h
  | cons c cs ih =>
    intro evs p evs' h
    cases hp : ports[c]? with
    | none => simp [selectLoop, hp] at h
    | some q =>
      simp only [selectLoop, hp] at h
      cases ha : probeStep (respOf q) with
      | retry =>
        simp only [ha] at h
        exact ih _ p evs' h
      | accept =>
        simp only [ha] at h
        injection h with h1 h2
        subst h1; subst h2
        simp

/-- C3 counterexample: with exactly one candidate, `__main__` takes the
`else: port = ports[0]` branch and opens the port at line 182 without ever
issuing the `"version"` probe. -/
theorem c3_counterexample :
    mainSelect ["/dev/ttyACM0"] (fun _ => "cpufw 200 OK\n\n") [] =
      SelectOutcome.selected "/dev/ttyACM0"
        [Ev.openedPort "/dev/ttyACM0", Ev.handedOver "/dev/ttyACM0"]
    ∧ Ev.probed "/dev/ttyACM0" ∉
        [Ev.openedPort "/dev/ttyACM0", Ev.handedOver "/dev/ttyACM0"] := by
  exact ⟨rfl, by decide⟩

/-- C3 (amended): when more than one candidate exists, every candidate handed
to the caller was probed with the `"version"` exchange first; when exactly one
candidate exists, the handshake is skipped and the sole port is opened and
handed over unprobed. -/
theorem c3_probe_amended (ports : List String) (respOf : String → String)
    (choices : List Nat) (p : String) (evs : List Ev)
    (h : mainSelect ports respOf choices = SelectOutcome.selected p evs) :
    (ports.length > 1 → Ev.probed p ∈ evs)
    ∧ (ports.length ≤ 1 → ∀ q, Ev.probed q ∉ evs) := by
  constructor
  · intro hlen
    rw [mainSelect.eq_def, if_pos hlen] at h
    exact selectLoop_probed ports respOf choices [] p evs h
  · intro hlen
    rw [mainSelect.eq_def, if_neg (Nat.not_lt.mpr hlen)] at h
    cases hports : ports with
    | nil => rw [hports] at h; simp at h
    | cons q qs =>
      rw [hports] at h
      injection h with h1 h2
      subst h2
      intro r hr
      simp at hr

/-- C3 witness: the amended theorem applied to a two-candidate run. -/
theorem c3_probe_amended_witness :
    Ev.probed "A" ∈ [Ev.openedPort "A", Ev.probed "A", Ev.handedOver "A"] :=
  (c3_probe_amended ["A", "B"] (fun _ => "200 OK\n\n") [0] "A"
      [Ev.openedPort "A", Ev.probed "A", Ev.handedOver "A"] rfl).1 (by decide)

/-- Is this event a `com.close()` call? -/
def isCloseEv : Ev → Bool
  | Ev.closedPort _ => true
  | _ => false

/-- C4: at the failing input — candidate `"A"` whose probe maps to the
`"error"` sentinel, then candidate `"B"` which is accepted — the loop opens
`"B"` while the connection opened for `"A"` has never been closed: the event
trace holds two open events and no close event at all, contradicting
close-before-next-open. -/
theorem c4_no_close_on_reject :
    mainSelect ["A", "B"] (fun p => if p = "A" then "error" else "200 OK\n\n") [0, 1] =
      SelectOutcome.selected "B"
        [Ev.openedPort "A", Ev.probed "A", Ev.openedPort "B", Ev.probed "B",
          Ev.handedOver "B"]
    ∧ ([Ev.openedPort "A", Ev.probed "A", Ev.openedPort "B", Ev.probed "B",
          Ev.handedOver "B"].any isCloseEv) = false := by
  exact ⟨rfl, by decide⟩

/-! ### Claim C5: timeout versus transport error kinds -/

/-- Connection whose single poll is at 3 s with nothing received (times out). -/
def comTimeout5 : Com := ⟨[], false, [⟨3, []⟩]⟩

/-- Connection whose `com.write` raises a `SerialException`. -/
def comWriteFail5 : Com := ⟨[], true, []⟩

/-- C5 counterexample: `request_bap` raises the timeout as the generic
`Exception` class and the transport failure as `SerialException`, and no
exception class catches the former without also catching the latter — so a
caller cannot retry only on timeout by exception kind. -/
theorem c5_counterexample :
    (request_bap comTimeout5 (PyVal.str "version")).result =
      some (Except.error timeoutExc)
    ∧ (request_bap comWriteFail5 (PyVal.str "version")).result =
      some (Except.error writeFailExc)
    ∧ ¬ ∃ h : ExcClass, catchesB h timeoutExc = true ∧ catchesB h writeFailExc = false := by
  refine ⟨by decide, by decide, ?_⟩
  rintro ⟨h, h1, h2⟩
  revert h1 h2
  cases h <;> decide

/-- C5 (amended): the timeout of line 101 is raised with the generic
`Exception` class while transport failures surface as `SerialException`
(a subclass of `OSError`, itself a subclass of `Exception`), so every handler
class that catches the timeout also catches the transport error; the converse
discrimination is possible — an `except SerialException` clause catches the
transport error but not the timeout. -/
theorem c5_exc_classes_amended (h : ExcClass)
    (hc : catchesB h timeoutExc = true) :
    catchesB h writeFailExc = true
    ∧ catchesB ExcClass.serialException writeFailExc = true
    ∧ catchesB ExcClass.serialException timeoutExc = false := by
  refine ⟨?_, by decide, by decide⟩
  revert hc
  cases h <;> decide

/-- C5 witness: the amended theorem at the handler class `Exception`. -/
theorem c5_exc_classes_amended_witness :
    catchesB ExcClass.exception writeFailExc = true :=
  (c5_exc_classes_amended ExcClass.exception (by decide)).1

/-! ### Claim C6: the type check on the command argument -/

/-- C6: for every non-string command value, `request_bap` raises the
`TypeError` of line 81 before writing any bytes (the written byte list of the
run is empty); for a string command that error class is never raised. -/
theorem c6_request_bap_typecheck (com : Com) (v : PyVal) :
    ((∀ s, v ≠ PyVal.str s) →
      request_bap com v = ⟨[], some (Except.error typeErrorExc)⟩)
    ∧ (∀ s e, v = PyVal.str s →
      (request_bap com v).result = some (Except.error e) →
      e.cls ≠ ExcClass.typeError) := by
  constructor
  · intro hns
    cases v with
    | str s => exact absurd rfl (hns s)
    | int i => rfl
    | bytes b => rfl
    | pyNone => rfl
  · rintro s e rfl he
    cases hwf : com.writeFails with
    | true =>
      have hres : (request_bap com (PyVal.str s)).result =
          some (Except.error writeFailExc) := by
        simp [request_bap, hwf]
      rw [hres] at he
      have hee : writeFailExc = e := by simpa using he
      subst hee
      decide
    | false =>
      cases hr : readLoop com.polls [] with
      | complete b =>
        cases hd : utf8DecodeStr b with
        | some o =>
          rw [request_bap_ok com s hwf b o hr hd] at he
          simp at he
        | none =>
          rw [request_bap_decodeErr com s hwf b hr hd] at he
          have hee : decodeFailExc = e := by simpa using he
          subst hee
          decide
      | timedOut =>
        rw [request_bap_timeout com s hwf hr] at he
        have hee : timeoutExc = e := by simpa using he
        subst hee
        decide
      | undetermined =>
        rw [request_bap_undet com s hwf hr] at he
        simp at he

/-- A connection with no traffic at all. -/
def comIdle : Com := ⟨[], false, []⟩

/-- C6 witness: an `int` command value is rejected with the `TypeError` and
nothing is written. -/
theorem c6_request_bap_typecheck_witness :
    request_bap comIdle (PyVal.int 7) = ⟨[], some (Except.error typeErrorExc)⟩ :=
  (c6_request_bap_typecheck comIdle (PyVal.int 7)).1 (fun _ h => PyVal.noConfusion h)

/-! ### Claims C7, C8: port discovery -/

/-- C7: on a platform that is neither Windows- nor Linux-family, `get_ports`
on a fresh `SerialPorts` instance returns the empty sequence without raising,
and the unsupported platform is reported through the logger as a non-fatal
condition. -/
theorem c7_unsupported_platform (h : Host) (hp : h.platform = Platform.other) :
    get_ports h [] = [] ∧ (scan_ports h []).errLogs = ["Unsupported OS"] := by
  constructor <;> simp [get_ports, scan_ports, scanCandidates, hp]

/-- A host on an unsupported platform. -/
def hostOther : Host := ⟨Platform.other, ["/dev/ttyS0"], fun _ => true⟩

/-- C7 witness: concrete unsupported-platform host. -/
theorem c7_unsupported_platform_witness : get_ports hostOther [] = [] :=
  (c7_unsupported_platform hostOther rfl).1

/-- C8: whenever the platform branch yields a candidate list, the scan result
is exactly the candidates whose open-and-close smoke test succeeds: every
failing candidate is excluded (its `SerialException` swallowed by the
`except ... pass` of lines 69-70) and every other candidate is still
considered — a single bad path never aborts discovery. -/
theorem c8_scan_filter (h : Host) (cur : List String) (cands : List String)
    (hc : scanCandidates h = some cands) :
    (scan_ports h cur).ports = cands.filter h.openCloseOk
    ∧ ∀ p, p ∈ (scan_ports h cur).ports ↔ p ∈ cands ∧ h.openCloseOk p = true := by
  constructor
  · simp [scan_ports, hc]
  · intro p
    simp [scan_ports, hc, List.mem_filter]

/-- A Linux host with three device nodes, one of which cannot be opened. -/
def hostLinux : Host :=
  ⟨Platform.linux, ["/dev/ttyACM0", "/dev/ttyBAD", "/dev/ttyS0"],
    fun p => p != "/dev/ttyBAD"⟩

/-- C8 witness: on `hostLinux` the bad node is excluded and scanning
continues past it. -/
theorem c8_scan_filter_witness :
    (scan_ports hostLinux []).ports =
      List.filter hostLinux.openCloseOk ["/dev/ttyACM0", "/dev/ttyBAD", "/dev/ttyS0"] :=
  (c8_scan_filter hostLinux [] ["/dev/ttyACM0", "/dev/ttyBAD", "/dev/ttyS0"] rfl).1

/-! ### Claim C9: the `"error"` sentinel of `send` -/

/-- C9: whenever `request_bap` raises any exception, `send` swallows it and
returns the literal string `"error"`; and since the probe loop of `__main__`
tests `'error' in resp`, a genuine successful reply containing the substring
`"error"` is treated by `probeStep` exactly like a failure. -/
theorem c9_send_sentinel (com1 com2 : Com) (cmd1 cmd2 : PyVal) (e : PyExc) (s : String)
    (h1 : (request_bap com1 cmd1).result = some (Except.error e))
    (h2 : (request_bap com2 cmd2).result = some (Except.ok s))
    (hs : strContains s "error" = true) :
    send com1 cmd1 = some "error"
    ∧ send com2 cmd2 = some s
    ∧ probeStep "error" = LoopAction.retry
    ∧ probeStep s = LoopAction.retry := by
  refine ⟨?_, ?_, by decide, ?_⟩
  · simp [send, h1]
  · simp [send, h2]
  · simp [probeStep, hs]

/-- A connection that fails on write, so `request_bap` raises. -/
def comErr9 : Com := ⟨[], true, []⟩

/-- A connection whose genuine reply contains the substring `"error"`. -/
def comOk9 : Com := ⟨[], false, [⟨1, encodeStr "errors: 0\n\n"⟩]⟩

/-- C9 witness: the failing exchange and the genuine `"errors: 0"` reply are
both mapped to `retry` by the probe check. -/
theorem c9_send_sentinel_witness :
    send comErr9 (PyVal.str "version") = some "error"
    ∧ send comOk9 (PyVal.str "version") = some "errors: 0\n\n"
    ∧ probeStep "errors: 0\n\n" = LoopAction.retry := by
  have h := c9_send_sentinel comErr9 comOk9 (PyVal.str "version") (PyVal.str "version")
    writeFailExc "errors: 0\n\n" (by decide) (by decide) (by decide)
  exact ⟨h.1, h.2.1, h.2.2.2⟩

/-! ### Claim C10: invalid UTF-8 in a completed frame -/

/-- C10: when the read loop completes (the buffer came to contain `b"\n\n"`)
but the accumulated bytes are not valid UTF-8, `request_bap` raises the
`UnicodeDecodeError` of line 103 instead of returning a value; this error is
distinct from the timeout exception and carries the `UnicodeDecodeError`
class. -/
theorem c10_decode_error (com : Com) (cmd : String) (b : List Nat)
    (hw : com.writeFails = false)
    (hb : readLoop com.polls [] = ReadResult.complete b)
    (hd : utf8DecodeStr b = none) :
    (request_bap com (PyVal.str cmd)).result = some (Except.error decodeFailExc)
    ∧ decodeFailExc ≠ timeoutExc
    ∧ decodeFailExc.cls = ExcClass.unicodeDecodeError :=
  ⟨request_bap_decodeErr com cmd hw b hb hd, by decide, rfl⟩

/-- A connection delivering `0xFF` followed by the frame terminator within
the budget: the frame completes but is not valid UTF-8. -/
def comBadUtf8 : Com := ⟨[], false, [⟨1, [255, 10, 10]⟩]⟩

/-- C10 witness: the decode error concretely on `comBadUtf8`. -/
theorem c10_decode_error_witness :
    (request_bap comBadUtf8 (PyVal.str "version")).result =
      some (Except.error decodeFailExc) :=
  (c10_decode_error comBadUtf8 "version" [255, 10, 10] rfl (by decide) (by decide)).1
